import Mathlib

/-!
# Verification of the Triostack Audit SDK client tracker (src/index.js)

A shallow embedding of the browser-side audit tracker.  JavaScript state
(the module-level `globalAuditInstance`, the `window`/`history` objects,
`localStorage`) is modelled as explicit state records; asynchronous
behaviour (the `setTimeout` initial track, `fetch` outcomes) is modelled
by explicit task flags and an outcome parameter; machine clocks are `Int`
milliseconds.  Every definition is translated from src/index.js.
-/

namespace TriostackAudit

/-! ## Session & clock

`handleRouteChange` computes `Math.round((Date.now() - routeStartTime) / 1000)`.
Over integer milliseconds, JavaScript `Math.round (delta / 1000)` is
`⌊(delta + 500) / 1000⌋` (floor division: `Math.round` rounds halves toward
positive infinity). -/

def jsRoundDiv1000 (deltaMs : Int) : Int :=
  Int.fdiv (deltaMs + 500) 1000

/-! ## Local storage (src/index.js lines 22-46)

`localStorage` is modelled by `StorageState`: `readable = none` models a
read that throws (or unparsable JSON), in which case `getLocalAuditData`
degrades to `[]`; `writeFails = true` models a `setItem` that throws, in
which case `saveLocalAuditData` returns `false` and persists nothing. -/

structure Activity where
  userId : String
  route : String
  duration : Int
  ip : String
  city : String
  region : String
  country : String
  /-- In src/index.js the coordinates are only ever `null`; modelled as an
  always-`none` option. -/
  latitude : Option Int
  longitude : Option Int
  userAgent : String
  language : String
  timezone : String
  screenResolution : String
  viewport : String
  timestamp : String
  sessionId : String
deriving DecidableEq, Repr

structure StorageState where
  readable : Option (List Activity)
  writeFails : Bool
deriving DecidableEq, Repr

def getLocalAuditData (s : StorageState) : List Activity :=
  match s.readable with
  | some data => data
  | none => []

/-- Lines 35-39: `updated = [...existing, data]`, then
`updated.splice(0, updated.length - 100)` when it exceeds 100 entries. -/
def trimmedAppend (existing : List Activity) (data : Activity) : List Activity :=
  if (existing ++ [data]).length > 100 then
    (existing ++ [data]).drop ((existing ++ [data]).length - 100)
  else
    existing ++ [data]

/-- `saveLocalAuditData` (src/index.js lines 32-46): read the existing list,
append the new entry, trim to the last 100, then write back.  Returns
`true` on success, `false` when the write throws (storage left unchanged). -/
def saveLocalAuditData (s : StorageState) (data : Activity) : Bool × StorageState :=
  let updated := trimmedAppend (getLocalAuditData s) data
  if s.writeFails then
    (false, s)
  else
    (true, { s with readable := some updated })

/-! ## User info (src/index.js lines 49-63) -/

structure NavigatorEnv where
  userAgent : String
  language : String
  timezone : String
  screenW : Nat
  screenH : Nat
  innerW : Nat
  innerH : Nat
deriving DecidableEq, Repr

structure UserInfo where
  ip : String
  city : String
  region : String
  country : String
  latitude : Option Int
  longitude : Option Int
  userAgent : String
  language : String
  timezone : String
  screenResolution : String
  viewport : String
deriving DecidableEq, Repr

/-- `getUserInfo` (src/index.js lines 49-63): constant geo fields plus
browser-derived metadata.  No external API is consulted. -/
def getUserInfo (env : NavigatorEnv) : UserInfo :=
  { ip := "local"
    city := "Unknown"
    region := "Unknown"
    country := "Unknown"
    latitude := none
    longitude := none
    userAgent := env.userAgent
    language := env.language
    timezone := env.timezone
    screenResolution := toString env.screenW ++ "x" ++ toString env.screenH
    viewport := toString env.innerW ++ "x" ++ toString env.innerH }

/-! ## Configuration surface (src/index.js lines 65-73)

The destructuring defaults of `createAuditClient`: `includeGeo = false`,
`userId = "anonymous"`, `enableLocalStorage = true`, `enableServerSync =
false`.  An omitted option is `none` in `RawOptions`. -/

structure RawOptions where
  baseUrl : Option String
  clientDbUrl : Option String
  includeGeo : Option Bool
  userId : Option String
  enableLocalStorage : Option Bool
  enableServerSync : Option Bool
deriving DecidableEq, Repr

structure Config where
  baseUrl : Option String
  clientDbUrl : Option String
  includeGeo : Bool
  userId : String
  enableLocalStorage : Bool
  enableServerSync : Bool
deriving DecidableEq, Repr

def resolveOptions (r : RawOptions) : Config :=
  { baseUrl := r.baseUrl
    clientDbUrl := r.clientDbUrl
    includeGeo := r.includeGeo.getD false
    userId := r.userId.getD "anonymous"
    enableLocalStorage := r.enableLocalStorage.getD true
    enableServerSync := r.enableServerSync.getD false }

/-! ## Delivery engine (src/index.js lines 182-258)

A `fetch` of the audit POST either resolves with a response (status plus
whether the body parses as JSON), rejects with the 10s `AbortSignal`
timeout, or rejects with a transport error.  `sendToAuditAPI` throws only
when `process.env.NODE_ENV === "development"` (`isDev`); otherwise it
logs with `console.warn` and resolves with `{success:false}`. -/

inductive FetchOutcome where
  | response (status : Nat) (jsonParses : Bool)
  | timeout
  | transportError
deriving DecidableEq, Repr

/-- `res.ok`: status in the range 200-299. -/
def statusOk (status : Nat) : Bool :=
  decide (200 ≤ status) && decide (status < 300)

/-- Whether the delivery attempt failed (non-success status, timeout, or
transport error). -/
def fetchFails : FetchOutcome → Bool
  | .response status _ => !statusOk status
  | .timeout => true
  | .transportError => true

inductive SendResult where
  /-- No `baseUrl`: warn and return without fetching (lines 183-186). -/
  | skipped
  /-- Success; `jsonParses` records whether the body parsed (lines 207-213). -/
  | delivered (jsonParses : Bool)
  /-- Failure in non-development: `console.warn`, resolve `{success:false}`
  (lines 218-221). -/
  | warnedFailure
  /-- Failure in development: rethrow (lines 216-217). -/
  | threw
deriving DecidableEq, Repr

def sendToAuditAPI (isDev : Bool) (baseUrl : Option String) (f : FetchOutcome) : SendResult :=
  match baseUrl with
  | none => .skipped
  | some _ =>
    match f with
    | .response status jsonParses =>
      if statusOk status then .delivered jsonParses
      else if isDev then .threw else .warnedFailure
    | .timeout => if isDev then .threw else .warnedFailure
    | .transportError => if isDev then .threw else .warnedFailure

/-- `saveToClientDB` (src/index.js lines 225-258): same catch structure as
`sendToAuditAPI`, no missing-URL guard (the caller checks `clientDbUrl`). -/
def saveToClientDB (isDev : Bool) (f : FetchOutcome) : SendResult :=
  match f with
  | .response status jsonParses =>
    if statusOk status then .delivered jsonParses
    else if isDev then .threw else .warnedFailure
  | .timeout => if isDev then .threw else .warnedFailure
  | .transportError => if isDev then .threw else .warnedFailure

/-- Observable effects of one `track` call. -/
structure TrackObs where
  /-- Number of times the caller-supplied `onError` ran (one per caught
  rethrow from a sink). -/
  onErrorCalls : Nat
  /-- Whether a delivery failure was logged via `console.warn` instead. -/
  warnedConsole : Bool
  /-- Whether `saveLocalAuditData` reported success. -/
  savedLocally : Bool
deriving DecidableEq, Repr

def onErrorCallsOf : Option SendResult → Nat
  | some .threw => 1
  | _ => 0

def warnedOf : Option SendResult → Bool
  | some .warnedFailure => true
  | _ => false

/-- Assemble the `activity` object of `track` (src/index.js lines 143-152). -/
def buildActivity (cfg : Config) (route : String) (duration : Int)
    (env : NavigatorEnv) (timestamp sessionId : String) : Activity :=
  let info := getUserInfo env
  { userId := cfg.userId
    route := route
    duration := duration
    ip := info.ip
    city := info.city
    region := info.region
    country := info.country
    latitude := info.latitude
    longitude := info.longitude
    userAgent := info.userAgent
    language := info.language
    timezone := info.timezone
    screenResolution := info.screenResolution
    viewport := info.viewport
    timestamp := timestamp
    sessionId := sessionId }

/-- `track` (src/index.js lines 142-180).  Every sink failure is caught
inside `track` (`try { await ... } catch (err) { onError(err) }`), so the
returned promise always resolves: the `Except` error case is never
produced.  `apiFetch`/`dbFetch` are the outcomes of the two independent
fetches. -/
def track (cfg : Config) (isDev : Bool) (st : StorageState)
    (apiFetch dbFetch : FetchOutcome) (activity : Activity) :
    Except String (TrackObs × StorageState × Activity) :=
  let saveStep :=
    if cfg.enableLocalStorage then saveLocalAuditData st activity else (false, st)
  let apiRes : Option SendResult :=
    if cfg.enableServerSync && cfg.baseUrl.isSome then
      some (sendToAuditAPI isDev cfg.baseUrl apiFetch)
    else none
  let dbRes : Option SendResult :=
    if cfg.clientDbUrl.isSome && cfg.enableServerSync then
      some (saveToClientDB isDev dbFetch)
    else none
  .ok
    ({ onErrorCalls := onErrorCallsOf apiRes + onErrorCallsOf dbRes
       warnedConsole := warnedOf apiRes || warnedOf dbRes
       savedLocally := saveStep.1 },
     saveStep.2, activity)

/-- Whether a `track` call resolved (did not reject into caller code). -/
def trackOk : Except String (TrackObs × StorageState × Activity) → Bool
  | .ok _ => true
  | .error _ => false

/-- The observable effects of a resolved `track` call. -/
def trackObsOf : Except String (TrackObs × StorageState × Activity) → Option TrackObs
  | .ok (obs, _) => some obs
  | .error _ => none

/-! ## Navigation interceptor and instance guard (src/index.js lines 1-140, 274-314)

`window`/`history`/module state is a `World`; a tracker instance's closure
variables (`currentRoute`, `routeStartTime`, `originalHistoryMethods`,
`eventListeners`) form a `Handle`.  A history method is either the pristine
browser implementation or a patch wrapping an inner implementation that,
after the inner call, synchronously dispatches a named custom event
(src/index.js lines 302-314). -/

inductive HistoryImpl where
  | original
  | patched (inner : HistoryImpl) (eventName : String)
deriving DecidableEq, Repr

/-- One registered `window` listener: the event name it listens for, the id
of the tracker instance that installed it, and a tag distinguishing the
instance's three listeners. -/
structure Listener where
  eventName : String
  ownerId : Nat
  tag : Nat
deriving DecidableEq, Repr

structure World where
  isBrowser : Bool
  pathname : String
  pushImpl : HistoryImpl
  replImpl : HistoryImpl
  winListeners : List Listener
  /-- `globalAuditInstance` slot: id of the active instance, if any. -/
  globalSlot : Option Nat
deriving DecidableEq, Repr

structure Handle where
  id : Nat
  /-- Closure variable `currentRoute`. -/
  route : String
  /-- Closure variable `routeStartTime` (ms). -/
  startTime : Int
  /-- `originalHistoryMethods.pushState`, captured before patching. -/
  origPush : HistoryImpl
  /-- `originalHistoryMethods.replaceState`, captured before patching. -/
  origRepl : HistoryImpl
  /-- The instance's `eventListeners` array. -/
  myListeners : List Listener
  cfg : Config
deriving DecidableEq, Repr

structure TrackedEvent where
  route : String
  duration : Int
deriving DecidableEq, Repr

/-- `handleRouteChange` (src/index.js lines 107-112): emit an event for the
route being left with `Math.round((now - routeStartTime)/1000)` seconds,
then reset `currentRoute` to the new `window.location.pathname` and restart
the clock. -/
def handleRouteChange (h : Handle) (pathNow : String) (now : Int) : TrackedEvent × Handle :=
  ({ route := h.route, duration := jsRoundDiv1000 (now - h.startTime) },
   { h with route := pathNow, startTime := now })

/-- `patchHistoryMethod` (src/index.js lines 302-314): wrap the current
implementation so each invocation performs the original effect and then
dispatches `eventName`.  (The `if (!original) return` guard never fires in
the model: a `HistoryImpl` always exists.) -/
def patchHistoryMethod (impl : HistoryImpl) (eventName : String) : HistoryImpl :=
  .patched impl eventName

/-- The three listeners one instance installs, in installation order
(src/index.js lines 114-131). -/
def instanceListeners (id : Nat) : List Listener :=
  [{ eventName := "popstate", ownerId := id, tag := 0 },
   { eventName := "pushstate", ownerId := id, tag := 1 },
   { eventName := "replacestate", ownerId := id, tag := 2 }]

/-- The fresh instance's closure state at creation time `now`
(src/index.js lines 94-105). -/
def freshHandle (opts : RawOptions) (w : World) (now : Int) (newId : Nat) : Handle :=
  { id := newId
    route := w.pathname
    startTime := now
    origPush := w.pushImpl
    origRepl := w.replImpl
    myListeners := instanceListeners newId
    cfg := resolveOptions opts }

/-- The world after a fresh creation: listeners appended, both history
methods patched, singleton slot filled (src/index.js lines 114-140, 293). -/
def freshWorld (w : World) (newId : Nat) : World :=
  { w with
    winListeners := w.winListeners ++ instanceListeners newId
    pushImpl := patchHistoryMethod w.pushImpl "pushstate"
    replImpl := patchHistoryMethod w.replImpl "replacestate"
    globalSlot := some newId }

inductive CreateResult where
  /-- Non-browser: the no-op tracker object (src/index.js lines 78-83). -/
  | noop
  /-- Existing instance returned unchanged (src/index.js lines 87-92). -/
  | existing
  | fresh (h : Handle)
deriving DecidableEq, Repr

structure CreateOut where
  result : CreateResult
  world : World
  /-- Whether the `setTimeout(..., 0)` initial track was scheduled
  (src/index.js lines 137-140); scheduled exactly on the fresh path. -/
  scheduledInitialTrack : Bool
  /-- Whether `console.warn` ran during creation. -/
  warnedConsole : Bool
deriving DecidableEq, Repr

/-- The `ConfigurationError` the specification describes.  src/index.js
never constructs it: the `Except` error case below is unreachable. -/
inductive ConfigurationError where
  | missingBaseUrl
deriving DecidableEq, Repr

/-- `createAuditClient` (src/index.js lines 65-300).  Checks, in order:
browser environment (warn and return the no-op tracker), the singleton
slot (warn and return the existing instance), then builds a fresh
instance: capture route/clock/originals, install listeners, patch both
history methods, schedule the initial track, fill the slot. -/
def createAuditClient (opts : RawOptions) (w : World) (now : Int) (newId : Nat) :
    Except ConfigurationError CreateOut :=
  if !w.isBrowser then
    .ok { result := .noop, world := w, scheduledInitialTrack := false, warnedConsole := true }
  else if w.globalSlot.isSome then
    .ok { result := .existing, world := w, scheduledInitialTrack := false, warnedConsole := true }
  else
    .ok { result := .fresh (freshHandle opts w now newId)
          world := freshWorld w newId
          scheduledInitialTrack := true
          warnedConsole := false }

/-- Whether a creation call threw. -/
def createThrew (r : Except ConfigurationError CreateOut) : Bool :=
  match r with
  | .error _ => true
  | .ok _ => false

/-- The `setTimeout` callback of src/index.js lines 137-140: track the
closure's current route with duration 0. -/
def initialTrackEvent (h : Handle) : TrackedEvent :=
  { route := h.route, duration := 0 }

/-- `window.removeEventListener`: removes the one registered matching
listener; removing an absent listener is a silent no-op. -/
def removeEventListener (ws : List Listener) (l : Listener) : List Listener :=
  match ws with
  | [] => []
  | x :: rest => if x = l then rest else x :: removeEventListener rest l

/-- `cleanup` (src/index.js lines 274-291): remove each recorded listener,
empty the `eventListeners` array, restore both history methods from
`originalHistoryMethods` (both always present, so both branches run), and
clear the singleton slot. -/
def cleanup (h : Handle) (w : World) : Handle × World :=
  let ws := h.myListeners.foldl removeEventListener w.winListeners
  ({ h with myListeners := [] },
   { w with
     winListeners := ws
     pushImpl := h.origPush
     replImpl := h.origRepl
     globalSlot := none })

/-- Number of registered listeners for a given event name. -/
def matchingListeners (w : World) (eventName : String) : Nat :=
  (w.winListeners.filter (fun l => l.eventName = eventName)).length

/-- Run `handleRouteChange` once per matching listener (dispatching a
custom event invokes every registered listener synchronously). -/
def fireHandlers (n : Nat) (h : Handle) (pathNow : String) (now : Int) :
    List TrackedEvent × Handle :=
  match n with
  | 0 => ([], h)
  | n + 1 =>
    let step := handleRouteChange h pathNow now
    let rest := fireHandlers n step.2 pathNow now
    (step.1 :: rest.1, rest.2)

/-- `window.dispatchEvent(new CustomEvent(eventName))` as seen by the
tracker's listeners. -/
def dispatchEvent (w : World) (eventName : String) (h : Handle) (now : Int) :
    List TrackedEvent × Handle :=
  fireHandlers (matchingListeners w eventName) h w.pathname now

/-- Invoking a history method: the pristine implementation performs the
navigation; a patched implementation first runs its inner implementation,
then dispatches its custom event (src/index.js lines 308-313). -/
def invokeHistory : HistoryImpl → World → Handle → String → Int →
    World × Handle × List TrackedEvent
  | .original, w, h, newPath, _ => ({ w with pathname := newPath }, h, [])
  | .patched inner eventName, w, h, newPath, now =>
    let step := invokeHistory inner w h newPath now
    let fired := dispatchEvent step.1 eventName step.2.1 now
    (step.1, fired.2, step.2.2 ++ fired.1)

/-- The no-op tracker's `track`: `async () => {}` — resolves, touches
nothing. -/
def noopTrack (st : StorageState) : Except String (Option Activity × StorageState) :=
  .ok (none, st)

/-- The no-op tracker's `cleanup`: `() => {}`. -/
def noopCleanup (w : World) : World := w

/-- The no-op tracker's `getLocalData`: `() => []`. -/
def noopGetLocalData : List Activity := []

/-! ## Concrete fixtures used to instantiate the theorems -/

/-- `createAuditClient({})`: every option omitted. -/
def rawDefaults : RawOptions :=
  { baseUrl := none, clientDbUrl := none, includeGeo := none, userId := none
    enableLocalStorage := none, enableServerSync := none }

/-- A pristine browser tab on route `/a`: unpatched history, no listeners,
empty singleton slot. -/
def pristineWorld : World :=
  { isBrowser := true, pathname := "/a", pushImpl := .original
    replImpl := .original, winListeners := [], globalSlot := none }

/-- The same state outside a browser (`typeof window === "undefined"`). -/
def nonBrowserWorld : World :=
  { pristineWorld with isBrowser := false }

def navEnv0 : NavigatorEnv :=
  { userAgent := "UA", language := "en-US", timezone := "UTC"
    screenW := 1920, screenH := 1080, innerW := 800, innerH := 600 }

def activity0 : Activity :=
  buildActivity (resolveOptions rawDefaults) "/a" 0 navEnv0
    "2026-01-01T00:00:00.000Z" "session-1"

/-- Server sync enabled with a `baseUrl`, no secondary sink, local storage
off. -/
def cfgSync : Config :=
  { baseUrl := some "http://x/audit", clientDbUrl := none, includeGeo := false
    userId := "anonymous", enableLocalStorage := false, enableServerSync := true }

def st0 : StorageState := { readable := some [], writeFails := false }

/-- A tracker whose clock was started at t = 2000 ms, observed at t = 0 ms
(backward clock skew). -/
def skewHandle : Handle :=
  { id := 1, route := "/a", startTime := 2000, origPush := .original
    origRepl := .original, myListeners := [], cfg := resolveOptions rawDefaults }

/-! ## Helper lemmas -/

theorem length_trimmedAppend_le (ex : List Activity) (d : Activity) :
    (trimmedAppend ex d).length ≤ 100 := by
  unfold trimmedAppend
  split
  · simp only [List.length_drop]
    omega
  · omega

theorem getLast?_trimmedAppend (ex : List Activity) (d : Activity) :
    (trimmedAppend ex d).getLast? = some d := by
  unfold trimmedAppend
  split
  · have hk : (ex ++ [d]).length - 100 ≤ ex.length := by
      simp only [List.length_append, List.length_cons, List.length_nil]
      omega
    rw [List.drop_append_of_le_length hk, List.getLast?_concat]
  · exact List.getLast?_concat ex

theorem suffix_trimmedAppend (ex : List Activity) (d : Activity) :
    List.IsSuffix (trimmedAppend ex d) (ex ++ [d]) := by
  unfold trimmedAppend
  split
  · exact List.drop_suffix _ _
  · exact List.suffix_refl _

theorem trimmedAppend_overflow (ex : List Activity) (d : Activity)
    (h : ex.length + 1 > 100) :
    trimmedAppend ex d = ex.drop (ex.length + 1 - 100) ++ [d]
      ∧ (trimmedAppend ex d).length = 100 := by
  have hlen : (ex ++ [d]).length = ex.length + 1 := by simp
  have hgt : (ex ++ [d]).length > 100 := by omega
  have hk : (ex ++ [d]).length - 100 ≤ ex.length := by omega
  constructor
  · rw [trimmedAppend, if_pos hgt, List.drop_append_of_le_length hk, hlen]
  · rw [trimmedAppend, if_pos hgt]
    simp only [List.length_drop]
    omega

theorem saveLocalAuditData_ok (s : StorageState) (d : Activity)
    (hw : s.writeFails = false) :
    saveLocalAuditData s d =
      (true, { s with readable := some (trimmedAppend (getLocalAuditData s) d) }) := by
  simp [saveLocalAuditData, hw]

/-! ## Claim C10: bounded local audit storage -/

/-- C10: with local storage enabled, each save appends the event and keeps
at most the most recent 100 entries (exactly 100 when overflowing, the
oldest dropped, the new entry retained as the last element); a failed read
degrades to the empty list and a failed write reports `false` without
changing storage. -/
theorem c10_local_storage_cap (s : StorageState) (d : Activity)
    (hw : s.writeFails = false) :
    getLocalAuditData { readable := none, writeFails := false } = []
    ∧ (∀ s2 : StorageState, s2.writeFails = true → saveLocalAuditData s2 d = (false, s2))
    ∧ (saveLocalAuditData s d).1 = true
    ∧ (getLocalAuditData (saveLocalAuditData s d).2).length ≤ 100
    ∧ (getLocalAuditData (saveLocalAuditData s d).2).getLast? = some d
    ∧ List.IsSuffix (getLocalAuditData (saveLocalAuditData s d).2)
        (getLocalAuditData s ++ [d])
    ∧ ((getLocalAuditData s).length + 1 > 100 →
        getLocalAuditData (saveLocalAuditData s d).2 =
          (getLocalAuditData s).drop ((getLocalAuditData s).length + 1 - 100) ++ [d]
        ∧ (getLocalAuditData (saveLocalAuditData s d).2).length = 100) := by
  have hsave := saveLocalAuditData_ok s d hw
  have hget : getLocalAuditData (saveLocalAuditData s d).2 =
      trimmedAppend (getLocalAuditData s) d := by
    rw [hsave]
    rfl
  refine ⟨rfl, ?_, ?_, ?_, ?_, ?_, ?_⟩
  · intro s2 h2
    simp [saveLocalAuditData, h2]
  · rw [hsave]
  · rw [hget]
    exact length_trimmedAppend_le _ _
  · rw [hget]
    exact getLast?_trimmedAppend _ _
  · rw [hget]
    exact suffix_trimmedAppend _ _
  · intro hover
    rw [hget]
    exact trimmedAppend_overflow _ _ hover

/-- C10 witness: a successful save on an empty store keeps the entry. -/
theorem c10_witness :
    st0.writeFails = false
    ∧ (saveLocalAuditData st0 activity0).1 = true
    ∧ (getLocalAuditData (saveLocalAuditData st0 activity0).2).length ≤ 100 :=
  ⟨rfl, (c10_local_storage_cap st0 activity0 rfl).2.2.1,
    (c10_local_storage_cap st0 activity0 rfl).2.2.2.1⟩

/-! ## Claim C9: geo defaults (corrected) -/

/-- C9 counterexample: the claim's sentinel is `"unknown"`, but the code
fills `ip` with `"local"` and the other geo fields with capitalized
`"Unknown"`. -/
theorem c9_counterexample :
    (getUserInfo navEnv0).ip ≠ "unknown" ∧ (getUserInfo navEnv0).ip = "local"
    ∧ (getUserInfo navEnv0).city ≠ "unknown" := by
  decide

/-- C9 amended: no geo field is ever missing and every one is a
deterministic constant, but the constants are `ip = "local"`,
`city = region = country = "Unknown"`, and `null` coordinates. -/
theorem c9_geo_defaults (env : NavigatorEnv) :
    (getUserInfo env).ip = "local"
    ∧ (getUserInfo env).city = "Unknown"
    ∧ (getUserInfo env).region = "Unknown"
    ∧ (getUserInfo env).country = "Unknown"
    ∧ (getUserInfo env).latitude = none
    ∧ (getUserInfo env).longitude = none :=
  ⟨rfl, rfl, rfl, rfl, rfl, rfl⟩

/-! ## Claim C6: includeGeo default (corrected) -/

/-- C6 counterexample: a call omitting `includeGeo` resolves it to `false`,
not `true` (src/index.js line 68: `includeGeo = false`). -/
theorem c6_counterexample :
    rawDefaults.includeGeo = none ∧ (resolveOptions rawDefaults).includeGeo ≠ true := by
  decide

/-- C6 amended: for every call to `createAuditClient` that omits the
`includeGeo` option, the option defaults to `false`. -/
theorem c6_includeGeo_default (r : RawOptions) (h : r.includeGeo = none) :
    (resolveOptions r).includeGeo = false := by
  simp [resolveOptions, h]

/-- C6 witness: `createAuditClient({})` resolves `includeGeo` to `false`. -/
theorem c6_witness :
    rawDefaults.includeGeo = none ∧ (resolveOptions rawDefaults).includeGeo = false :=
  ⟨rfl, c6_includeGeo_default rawDefaults rfl⟩

/-! ## Claim C7: missing baseUrl (corrected) -/

/-- C7 counterexample: a browser-context call with `baseUrl` omitted does
not throw a `ConfigurationError`; it returns a fresh tracker. -/
theorem c7_counterexample :
    rawDefaults.baseUrl = none
    ∧ createThrew (createAuditClient rawDefaults pristineWorld 0 1) = false
    ∧ createAuditClient rawDefaults pristineWorld 0 1 =
        .ok { result := .fresh (freshHandle rawDefaults pristineWorld 0 1)
              world := freshWorld pristineWorld 1
              scheduledInitialTrack := true
              warnedConsole := false } := by
  refine ⟨rfl, rfl, ?_⟩
  rfl

/-- C7 amended: `createAuditClient` never throws, whatever the options
(including a missing `baseUrl`); a missing `baseUrl` merely makes
`sendToAuditAPI` skip server delivery with a console warning. -/
theorem c7_never_throws :
    (∀ (opts : RawOptions) (w : World) (now : Int) (newId : Nat),
      createThrew (createAuditClient opts w now newId) = false)
    ∧ (∀ (isDev : Bool) (f : FetchOutcome),
        sendToAuditAPI isDev none f = SendResult.skipped) := by
  constructor
  · intro opts w now newId
    unfold createAuditClient
    split
    · rfl
    · split <;> rfl
  · intro isDev f
    rfl

/-! ## Claim C8: non-browser no-op tracker (confirmed) -/

/-- C8: outside a browser context, `createAuditClient` never throws: it
warns and returns the no-op tracker, leaves the world untouched, schedules
nothing, and the no-op tracker's operations complete without effect. -/
theorem c8_nonbrowser_noop (opts : RawOptions) (w : World) (now : Int)
    (newId : Nat) (st : StorageState) (h : w.isBrowser = false) :
    createAuditClient opts w now newId =
      .ok { result := .noop, world := w, scheduledInitialTrack := false
            warnedConsole := true }
    ∧ noopTrack st = .ok (none, st)
    ∧ noopCleanup w = w
    ∧ noopGetLocalData = [] := by
  refine ⟨?_, rfl, rfl, rfl⟩
  simp [createAuditClient, h]

/-- C8 witness: a concrete non-browser creation degrades to the no-op
tracker. -/
theorem c8_witness :
    nonBrowserWorld.isBrowser = false
    ∧ createAuditClient rawDefaults nonBrowserWorld 0 1 =
        .ok { result := .noop, world := nonBrowserWorld
              scheduledInitialTrack := false, warnedConsole := true } :=
  ⟨rfl, (c8_nonbrowser_noop rawDefaults nonBrowserWorld 0 1 st0 rfl).1⟩

/-! ## Claim C5: duration rounding and clamping (corrected) -/

/-- C5 counterexample: when the clock skews backward (start instant 2000 ms,
current instant 0 ms) the emitted duration is `-2`: the code has no clamp
to 0. -/
theorem c5_counterexample :
    (handleRouteChange skewHandle "/b" 0).1.duration < 0 := by
  decide

/-- C5 amended: the emitted duration is `Math.round` of the elapsed
milliseconds over 1000, and it is non-negative whenever the current
instant is not earlier than the previous transition instant; a backward
skew produces a negative value (no clamping). -/
theorem c5_duration_round (h : Handle) (pathNow : String) (now : Int)
    (hc : h.startTime ≤ now) :
    (handleRouteChange h pathNow now).1.duration = jsRoundDiv1000 (now - h.startTime)
    ∧ 0 ≤ (handleRouteChange h pathNow now).1.duration := by
  refine ⟨rfl, ?_⟩
  show 0 ≤ jsRoundDiv1000 (now - h.startTime)
  unfold jsRoundDiv1000
  apply Int.fdiv_nonneg
  · omega
  · decide

/-- C5 witness: a 1-second forward step yields a non-negative duration. -/
theorem c5_witness :
    skewHandle.startTime ≤ 3000
    ∧ 0 ≤ (handleRouteChange skewHandle "/b" 3000).1.duration :=
  ⟨by decide, (c5_duration_round skewHandle "/b" 3000 (by decide)).2⟩

/-! ## Listener bookkeeping lemmas -/

theorem removeListeners_fresh (i : Nat) :
    (instanceListeners i).foldl removeEventListener (instanceListeners i) = [] := by
  simp [instanceListeners, removeEventListener, List.foldl]

/-! ## Claim C2: singleton instance guard (confirmed) -/

/-- C2: a creation call while an instance is active returns the existing
instance with a warning and changes nothing (no second patches or
listeners, no initial-track scheduling); `cleanup` always clears the
singleton slot; and a creation call on an empty slot builds a fresh
instance. -/
theorem c2_singleton_guard (opts : RawOptions) (w : World) (now : Int) (i j : Nat)
    (hb : w.isBrowser = true) (hs : w.globalSlot = some j) :
    createAuditClient opts w now i =
      .ok { result := .existing, world := w, scheduledInitialTrack := false
            warnedConsole := true }
    ∧ (∀ (h : Handle) (w3 : World), ((cleanup h w3).2).globalSlot = none)
    ∧ (∀ (opts2 : RawOptions) (w2 : World) (now2 : Int) (k : Nat),
        w2.isBrowser = true → w2.globalSlot = none →
        createAuditClient opts2 w2 now2 k =
          .ok { result := .fresh (freshHandle opts2 w2 now2 k), world := freshWorld w2 k
                scheduledInitialTrack := true, warnedConsole := false }) := by
  refine ⟨?_, ?_, ?_⟩
  · simp [createAuditClient, hb, hs]
  · intro h w3
    rfl
  · intro opts2 w2 now2 k hb2 hs2
    simp [createAuditClient, hb2, hs2]

/-- C2 witness: with instance 1 active, a second creation returns the
existing instance and leaves the world unchanged. -/
theorem c2_witness :
    (freshWorld pristineWorld 1).isBrowser = true
    ∧ (freshWorld pristineWorld 1).globalSlot = some 1
    ∧ createAuditClient rawDefaults (freshWorld pristineWorld 1) 5 2 =
        .ok { result := .existing, world := freshWorld pristineWorld 1
              scheduledInitialTrack := false, warnedConsole := true } :=
  ⟨rfl, rfl, (c2_singleton_guard rawDefaults (freshWorld pristineWorld 1) 5 2 1 rfl rfl).1⟩

/-! ## Claim C3: teardown restoration round-trip (confirmed) -/

/-- C3: after the first `cleanup` of a freshly created tracker on a
pristine page, both history methods equal their pre-patch implementations,
no installed listener remains, invoking the primitives performs the plain
navigation and emits no tracked event, and a second `cleanup` is exactly a
no-op. -/
theorem c3_cleanup_restores (opts : RawOptions) (w0 : World) (now : Int) (i : Nat)
    (hb : w0.isBrowser = true) (hs : w0.globalSlot = none)
    (hl : w0.winListeners = []) (hp : w0.pushImpl = .original)
    (hr : w0.replImpl = .original) :
    ((cleanup (freshHandle opts w0 now i) (freshWorld w0 i)).2).pushImpl = w0.pushImpl
    ∧ ((cleanup (freshHandle opts w0 now i) (freshWorld w0 i)).2).replImpl = w0.replImpl
    ∧ ((cleanup (freshHandle opts w0 now i) (freshWorld w0 i)).2).winListeners = []
    ∧ (∀ (p : String) (t : Int),
        invokeHistory ((cleanup (freshHandle opts w0 now i) (freshWorld w0 i)).2).pushImpl
            ((cleanup (freshHandle opts w0 now i) (freshWorld w0 i)).2)
            ((cleanup (freshHandle opts w0 now i) (freshWorld w0 i)).1) p t =
          ({ (cleanup (freshHandle opts w0 now i) (freshWorld w0 i)).2 with pathname := p },
           (cleanup (freshHandle opts w0 now i) (freshWorld w0 i)).1, []))
    ∧ cleanup (cleanup (freshHandle opts w0 now i) (freshWorld w0 i)).1
          (cleanup (freshHandle opts w0 now i) (freshWorld w0 i)).2 =
        cleanup (freshHandle opts w0 now i) (freshWorld w0 i) := by
  obtain ⟨b, pn, pi, ri, wl, gs⟩ := w0
  simp only [World.isBrowser] at hb
  simp only [World.globalSlot] at hs
  simp only [World.winListeners] at hl
  simp only [World.pushImpl] at hp
  simp only [World.replImpl] at hr
  subst hb hs hl hp hr
  have hstep :
      cleanup (freshHandle opts ⟨true, pn, .original, .original, [], none⟩ now i)
        (freshWorld ⟨true, pn, .original, .original, [], none⟩ i) =
      ({ freshHandle opts ⟨true, pn, .original, .original, [], none⟩ now i with
          myListeners := [] },
        ⟨true, pn, .original, .original, [], none⟩) := by
    simp [cleanup, freshHandle, freshWorld, removeListeners_fresh]
  rw [hstep]
  refine ⟨rfl, rfl, rfl, ?_, ?_⟩
  · intro p t
    rfl
  · rfl

/-- C3 witness: concrete teardown of a fresh tracker restores the pristine
world and a repeated teardown changes nothing. -/
theorem c3_witness :
    pristineWorld.winListeners = []
    ∧ ((cleanup (freshHandle rawDefaults pristineWorld 0 1) (freshWorld pristineWorld 1)).2).pushImpl =
        pristineWorld.pushImpl
    ∧ ((cleanup (freshHandle rawDefaults pristineWorld 0 1) (freshWorld pristineWorld 1)).2).winListeners = []
    ∧ cleanup (cleanup (freshHandle rawDefaults pristineWorld 0 1) (freshWorld pristineWorld 1)).1
          (cleanup (freshHandle rawDefaults pristineWorld 0 1) (freshWorld pristineWorld 1)).2 =
        cleanup (freshHandle rawDefaults pristineWorld 0 1) (freshWorld pristineWorld 1) :=
  ⟨rfl,
    (c3_cleanup_restores rawDefaults pristineWorld 0 1 rfl rfl rfl rfl rfl).1,
    (c3_cleanup_restores rawDefaults pristineWorld 0 1 rfl rfl rfl rfl rfl).2.2.1,
    (c3_cleanup_restores rawDefaults pristineWorld 0 1 rfl rfl rfl rfl rfl).2.2.2.2⟩

/-! ## Claim C4: transition pairing and initial emission (confirmed) -/

/-- C4: with the tracker's three listeners installed and `pushState`
patched, invoking the patched method navigates and then emits exactly one
event carrying the route being left, with duration measured since the last
transition, after which the tracker's route and clock are reset to the new
location; creation schedules the asynchronous initial track exactly on the
fresh path, and its event carries the initial route with duration 0. -/
theorem c4_transition_pairing (w : World) (h : Handle) (j : Nat)
    (newPath : String) (now : Int)
    (hw : w.winListeners = instanceListeners j)
    (hp : w.pushImpl = patchHistoryMethod HistoryImpl.original "pushstate") :
    invokeHistory w.pushImpl w h newPath now =
      ({ w with pathname := newPath },
       { h with route := newPath, startTime := now },
       [{ route := h.route, duration := jsRoundDiv1000 (now - h.startTime) }])
    ∧ (∀ (opts : RawOptions) (w0 : World) (now0 : Int) (k : Nat),
        w0.isBrowser = true → w0.globalSlot = none →
        createAuditClient opts w0 now0 k =
          .ok { result := .fresh (freshHandle opts w0 now0 k), world := freshWorld w0 k
                scheduledInitialTrack := true, warnedConsole := false }
        ∧ initialTrackEvent (freshHandle opts w0 now0 k) =
            { route := w0.pathname, duration := 0 }) := by
  refine ⟨?_, ?_⟩
  · rw [hp]
    simp [invokeHistory, dispatchEvent, matchingListeners, hw, instanceListeners,
      List.filter, fireHandlers, handleRouteChange, patchHistoryMethod]
    exact hp
  · intro opts w0 now0 k hb hs
    refine ⟨?_, rfl⟩
    simp [createAuditClient, hb, hs]

/-- C4 witness: on the fresh tracker from `/a`, a programmatic navigation
to `/b` at t = 1000 ms emits exactly `{route: "/a", duration: 1}`, and the
scheduled initial event is `{route: "/a", duration: 0}`. -/
theorem c4_witness :
    (freshWorld pristineWorld 1).winListeners = instanceListeners 1
    ∧ (invokeHistory (freshWorld pristineWorld 1).pushImpl (freshWorld pristineWorld 1)
        (freshHandle rawDefaults pristineWorld 0 1) "/b" 1000).2.2 =
      [{ route := "/a", duration := 1 }]
    ∧ initialTrackEvent (freshHandle rawDefaults pristineWorld 0 1) =
        { route := "/a", duration := 0 } := by
  refine ⟨rfl, ?_, ?_⟩
  · rw [(c4_transition_pairing (freshWorld pristineWorld 1)
      (freshHandle rawDefaults pristineWorld 0 1) 1 "/b" 1000 rfl rfl).1]
    decide
  · exact ((c4_transition_pairing (freshWorld pristineWorld 1)
      (freshHandle rawDefaults pristineWorld 0 1) 1 "/b" 1000 rfl rfl).2
        rawDefaults pristineWorld 0 1 rfl rfl).2

/-! ## Claim C1: delivery failure routing (corrected) -/

theorem sendToAuditAPI_fails (isDev : Bool) (u : String) (f : FetchOutcome)
    (hf : fetchFails f = true) :
    sendToAuditAPI isDev (some u) f =
      if isDev then SendResult.threw else SendResult.warnedFailure := by
  cases f with
  | response s j =>
    have hs : statusOk s = false := by
      simpa [fetchFails] using hf
    simp [sendToAuditAPI, hs]
  | timeout => rfl
  | transportError => rfl

/-- C1 counterexample: with server sync and a `baseUrl` configured, in a
non-development environment (`NODE_ENV !== "development"`) a delivery
timeout is swallowed with `console.warn`: `onError` runs zero times.  The
`track` promise still resolves. -/
theorem c1_counterexample :
    fetchFails FetchOutcome.timeout = true
    ∧ cfgSync.enableServerSync = true
    ∧ track cfgSync false st0 FetchOutcome.timeout FetchOutcome.timeout activity0 =
        .ok ({ onErrorCalls := 0, warnedConsole := true, savedLocally := false },
             st0, activity0) :=
  ⟨rfl, rfl, rfl⟩

/-- C1 amended: for a tracker with server sync enabled and a `baseUrl`
configured (no secondary sink), every failing delivery — non-success
status, timeout, or transport error — leaves `track` resolving without
raising; the failure reaches the caller-supplied `onError` exactly when
`NODE_ENV === "development"`, and is otherwise logged via `console.warn`
inside the delivery function. -/
theorem c1_delivery_failure_routing (cfg : Config) (isDev : Bool)
    (st : StorageState) (f g : FetchOutcome) (a : Activity)
    (hSync : cfg.enableServerSync = true) (hBase : cfg.baseUrl.isSome = true)
    (hDb : cfg.clientDbUrl = none) (hf : fetchFails f = true) :
    trackOk (track cfg isDev st f g a) = true
    ∧ (trackObsOf (track cfg isDev st f g a)).map TrackObs.onErrorCalls =
        some (if isDev then 1 else 0)
    ∧ (trackObsOf (track cfg isDev st f g a)).map TrackObs.warnedConsole =
        some (!isDev) := by
  obtain ⟨u, hu⟩ : ∃ u, cfg.baseUrl = some u := Option.isSome_iff_exists.mp hBase
  cases isDev with
  | false =>
    refine ⟨?_, ?_, ?_⟩ <;>
      simp [track, trackOk, trackObsOf, hSync, hu, hDb,
        sendToAuditAPI_fails false u f hf, onErrorCallsOf, warnedOf]
  | true =>
    refine ⟨?_, ?_, ?_⟩ <;>
      simp [track, trackOk, trackObsOf, hSync, hu, hDb,
        sendToAuditAPI_fails true u f hf, onErrorCallsOf, warnedOf]

/-- C1 witness: in development, the same timeout failure is routed to
`onError` exactly once and `track` resolves. -/
theorem c1_witness :
    cfgSync.enableServerSync = true
    ∧ cfgSync.baseUrl.isSome = true
    ∧ cfgSync.clientDbUrl = none
    ∧ fetchFails FetchOutcome.timeout = true
    ∧ trackOk (track cfgSync true st0 FetchOutcome.timeout FetchOutcome.timeout activity0) = true
    ∧ (trackObsOf (track cfgSync true st0 FetchOutcome.timeout FetchOutcome.timeout activity0)).map
        TrackObs.onErrorCalls = some (if true then 1 else 0) :=
  ⟨rfl, rfl, rfl, rfl,
    (c1_delivery_failure_routing cfgSync true st0 .timeout .timeout activity0
      rfl rfl rfl rfl).1,
    (c1_delivery_failure_routing cfgSync true st0 .timeout .timeout activity0
      rfl rfl rfl rfl).2.1⟩

/-! ## End-to-end scenario

Two programmatic navigations `/a → /b → /c`, one second apart, on a fresh
tracker: the first emits `{route: "/a", duration: 1}` and the second
`{route: "/b", duration: 1}` — each event describes the route being left. -/

theorem scenario_two_navigations :
    (invokeHistory (freshWorld pristineWorld 1).pushImpl (freshWorld pristineWorld 1)
        (freshHandle rawDefaults pristineWorld 0 1) "/b" 1000).2.2 =
      [{ route := "/a", duration := 1 }]
    ∧ (invokeHistory
        (invokeHistory (freshWorld pristineWorld 1).pushImpl (freshWorld pristineWorld 1)
          (freshHandle rawDefaults pristineWorld 0 1) "/b" 1000).1.pushImpl
        (invokeHistory (freshWorld pristineWorld 1).pushImpl (freshWorld pristineWorld 1)
          (freshHandle rawDefaults pristineWorld 0 1) "/b" 1000).1
        (invokeHistory (freshWorld pristineWorld 1).pushImpl (freshWorld pristineWorld 1)
          (freshHandle rawDefaults pristineWorld 0 1) "/b" 1000).2.1
        "/c" 2000).2.2 =
      [{ route := "/b", duration := 1 }] := by
  decide

end TriostackAudit
